import Mathlib

/-!
Shallow embedding of the RoomInvitation entity facade of the wechaty
chatbot SDK (src/room-invitation.ts in the repository).

The facade delegates all data access to an injected puppet backend.  We
model the puppet payload store as a function from invitation ids to
optional payloads and thread it explicitly through every operation.
Every operation also returns the ordered trace of puppet calls it makes
and the log events it emits, so that ordering claims (for example that a
parse failure happens before any puppet call) and observability claims
(a warning is visible on the logging channel) are statable.

JavaScript specifics are embedded as follows: a TypeScript field that
may be `undefined` becomes an `Option`; the coalescing pattern
`payload.field || default` becomes a helper that also maps the falsy
values `""` and `0` to the default; `Promise` results become
`Except String`; `Date` values and `Date.now()` become integer
milliseconds since the epoch; `Math.floor` on a millisecond quotient
becomes `Int.fdiv` (floor division).  `JSON.stringify` and `JSON.parse`
are platform builtins, modelled abstractly: a serialized text is either
the encoding of a payload (which `JSON.parse` recovers exactly) or
malformed (on which `JSON.parse` throws).
-/

/-- Payload record of a room invitation, mirroring the
`RoomInvitationPayload` shape used by `src/room-invitation.ts`.
Fields that the code reads defensively with `||` defaults are optional. -/
structure RoomInvitationPayload where
  id : String
  inviterId : String
  topic : Option String
  memberCount : Option Int
  memberIdList : Option (List String)
  timestamp : Option Int
deriving DecidableEq

/-- JavaScript `v || d` for an optional string: `undefined` and the
falsy value `""` both yield the default. -/
def jsOrString (v : Option String) (d : String) : String :=
  match v with
  | none => d
  | some s => if s = "" then d else s

/-- JavaScript `v || d` for an optional number: `undefined` and the
falsy value `0` both yield the default. -/
def jsOrInt (v : Option Int) (d : Int) : Int :=
  match v with
  | none => d
  | some n => if n = 0 then d else n

/-- JavaScript `v || d` for an optional array: only `undefined` yields
the default, since every array (even the empty one) is truthy. -/
def jsOrList (v : Option (List String)) (d : List String) : List String :=
  v.getD d

/-- Model of a JSON text: either the serialization of a payload, or a
malformed string on which `JSON.parse` throws. -/
inductive JsonText where
  | payloadText (p : RoomInvitationPayload)
  | malformed (s : String)
deriving DecidableEq

/-- Model of `JSON.stringify` applied to a payload. -/
def jsonStringify (p : RoomInvitationPayload) : JsonText :=
  JsonText.payloadText p

/-- Model of `JSON.parse` followed by the `as RoomInvitationPayload`
cast performed by `fromJSON`: malformed input throws a parse error. -/
def jsonParse : JsonText → Except String RoomInvitationPayload
  | JsonText.payloadText p => Except.ok p
  | JsonText.malformed s => Except.error ("SyntaxError: Unexpected token in JSON: " ++ s)

/-- Behaviour of the injected puppet and of the bound context kept
outside the payload store: the outcome of `roomInvitationAccept` per
invitation id, and the outcome of `Contact.ready()` per contact id. -/
structure PuppetConfig where
  acceptResult : String → Except String Unit
  contactReadyResult : String → Except String Unit

/-- Bound bot context: holds the (possibly missing) puppet handle. -/
structure Wechaty where
  puppet : Option PuppetConfig

/-- A RoomInvitation class value: either the unspecialized base class,
or the class produced by `wechatifyRoomInvitation`, which captures one
bound context. -/
inductive RIClass where
  | base
  | wechatified (w : Wechaty)

/-- Embedding of `wechatifyRoomInvitation`: it returns a subclass whose
`wechaty` accessors are overridden to return the captured context. -/
def wechatifyRoomInvitation (w : Wechaty) : RIClass :=
  RIClass.wechatified w

/-- The `wechaty` accessor (static and instance agree in the source):
the base class throws; a wechatified class returns its captured context. -/
def RIClass.wechatyGet : RIClass → Except String Wechaty
  | RIClass.base =>
      Except.error "This class can not be used directly. See: https://github.com/wechaty/wechaty/issues/2027"
  | RIClass.wechatified w => Except.ok w

/-- An invitation handle: the class it was constructed from plus the
opaque invitation id (its only instance field). -/
structure RoomInvitation where
  cls : RIClass
  id : String

/-- One puppet call, recorded in the order the facade issues them. -/
inductive PuppetCall where
  | invitationPayloadGet (id : String)
  | invitationPayloadSet (id : String) (payload : RoomInvitationPayload)
  | invitationAccept (id : String)
  | contactReady (id : String)
deriving DecidableEq

/-- One event on the logging channel. -/
inductive LogEvent where
  | verbose (src msg : String)
  | warn (src msg : String)
deriving DecidableEq

/-- The puppet payload store, keyed by invitation id. -/
abbrev Store := String → Option RoomInvitationPayload

/-- Result of one facade operation: the store afterwards, the ordered
trace of puppet calls, the log events emitted, and the outcome. -/
structure MResult (α : Type) where
  store : Store
  calls : List PuppetCall
  logs : List LogEvent
  result : Except String α

/-- Embedding of the `RoomInvitation` constructor: it throws when the
class is the unspecialized base class (the `instanceToClass` guard) or
when the bound context has no puppet; it makes no puppet call, which the
empty trace records. -/
def RoomInvitation.construct (cls : RIClass) (id : String) :
    List PuppetCall × Except String RoomInvitation :=
  match cls with
  | RIClass.base =>
      ([], Except.error "RoomInvitation class can not be instantiated directly! See: https://github.com/wechaty/wechaty/issues/1217")
  | RIClass.wechatified w =>
      match w.puppet with
      | none => ([], Except.error "RoomInvitation class can not be instantiated without a puppet!")
      | some _ => ([], Except.ok ⟨cls, id⟩)

/-- Embedding of the static `load`: it just invokes the constructor. -/
def RoomInvitation.load (cls : RIClass) (id : String) :
    List PuppetCall × Except String RoomInvitation :=
  RoomInvitation.construct cls id

/-- The `this.wechaty.puppet` access chain performed at the start of
every instance method. -/
def RoomInvitation.puppetOf (inv : RoomInvitation) : Except String PuppetConfig :=
  match inv.cls with
  | RIClass.base =>
      Except.error "This class can not be used directly. See: https://github.com/wechaty/wechaty/issues/2027"
  | RIClass.wechatified w =>
      match w.puppet with
      | none => Except.error "TypeError: Cannot read properties of undefined"
      | some pu => Except.ok pu

/-- The puppet side of `roomInvitationPayload(id)`: fetch from the
store, rejecting when no payload is stored for the id. -/
def puppetInvitationPayloadGet (store : Store) (id : String) :
    Except String RoomInvitationPayload :=
  match store id with
  | some p => Except.ok p
  | none => Except.error ("no payload for room invitation id " ++ id)

/-- Functional update of the payload store: the state change performed
by a write-through `roomInvitationPayload(id, payload)` call that
resolves (a rejecting write-through leaves the store unchanged and its
error propagates, see `RoomInvitation.fromJSONWith`). -/
def Store.update (store : Store) (id : String) (p : RoomInvitationPayload) : Store :=
  fun i => if i = id then some p else store i

/-- Embedding of `topic()`: fetch the payload and return its topic with
the falsy-coalesced default `""` (the source repeats the operand:
`payload.topic || payload.topic || ""`, which is equivalent). -/
def RoomInvitation.topic (store : Store) (inv : RoomInvitation) : MResult String :=
  match inv.puppetOf with
  | Except.error e => ⟨store, [], [], Except.error e⟩
  | Except.ok _ =>
      ⟨store, [PuppetCall.invitationPayloadGet inv.id], [],
        match puppetInvitationPayloadGet store inv.id with
        | Except.error e => Except.error e
        | Except.ok p => Except.ok (jsOrString p.topic "")⟩

/-- Embedding of `memberCount()`: fetch the payload and return its
member count with the falsy-coalesced default `0`. -/
def RoomInvitation.memberCount (store : Store) (inv : RoomInvitation) : MResult Int :=
  match inv.puppetOf with
  | Except.error e => ⟨store, [], [LogEvent.verbose "RoomInvitation" "memberCount()"], Except.error e⟩
  | Except.ok _ =>
      ⟨store, [PuppetCall.invitationPayloadGet inv.id],
        [LogEvent.verbose "RoomInvitation" "memberCount()"],
        match puppetInvitationPayloadGet store inv.id with
        | Except.error e => Except.error e
        | Except.ok p => Except.ok (jsOrInt p.memberCount 0)⟩

/-- Embedding of `inviter()`: fetch the payload and load the contact
handle for its inviter id (a contact handle is its id string). -/
def RoomInvitation.inviter (store : Store) (inv : RoomInvitation) : MResult String :=
  match inv.puppetOf with
  | Except.error e => ⟨store, [], [LogEvent.verbose "RoomInvitation" "inviter()"], Except.error e⟩
  | Except.ok _ =>
      ⟨store, [PuppetCall.invitationPayloadGet inv.id],
        [LogEvent.verbose "RoomInvitation" "inviter()"],
        match puppetInvitationPayloadGet store inv.id with
        | Except.error e => Except.error e
        | Except.ok p => Except.ok p.inviterId⟩

/-- Outcome of `Promise.all` over the `ready()` calls of a list of
contact handles: resolves only when every single `ready()` resolves. -/
def contactsReady (cfg : PuppetConfig) : List String → Except String Unit
  | [] => Except.ok ()
  | cid :: rest =>
      match cfg.contactReadyResult cid with
      | Except.error e => Except.error e
      | Except.ok _ => contactsReady cfg rest

/-- Embedding of `memberList()`: fetch the payload, load one contact
handle per member id in order, start a `ready()` wait on each (all of
them appear in the call trace), and resolve with the handles only when
all the waits resolve. -/
def RoomInvitation.memberList (store : Store) (inv : RoomInvitation) : MResult (List String) :=
  match inv.puppetOf with
  | Except.error e => ⟨store, [], [LogEvent.verbose "RoomInvitation" "roomMemberList()"], Except.error e⟩
  | Except.ok cfg =>
      match puppetInvitationPayloadGet store inv.id with
      | Except.error e =>
          ⟨store, [PuppetCall.invitationPayloadGet inv.id],
            [LogEvent.verbose "RoomInvitation" "roomMemberList()"], Except.error e⟩
      | Except.ok p =>
          ⟨store,
            PuppetCall.invitationPayloadGet inv.id
              :: (jsOrList p.memberIdList []).map (fun cid => PuppetCall.contactReady cid),
            [LogEvent.verbose "RoomInvitation" "roomMemberList()"],
            match contactsReady cfg (jsOrList p.memberIdList []) with
            | Except.error e => Except.error e
            | Except.ok _ => Except.ok (jsOrList p.memberIdList [])⟩

/-- Modelled from the spec: the helper `timestampToDate` from
`helper-functions/pure/timestamp-to-date.js` is imported by the source
but its file is not part of the given material.  Per the spec, `date()`
derives its value from the payload timestamp, and an absent timestamp
falls back to the epoch.  Dates are integer milliseconds. -/
def timestampToDate (timestamp : Option Int) : Int :=
  timestamp.getD 0

/-- Embedding of `date()`: fetch the payload and convert its timestamp. -/
def RoomInvitation.date (store : Store) (inv : RoomInvitation) : MResult Int :=
  match inv.puppetOf with
  | Except.error e => ⟨store, [], [LogEvent.verbose "RoomInvitation" "date()"], Except.error e⟩
  | Except.ok _ =>
      ⟨store, [PuppetCall.invitationPayloadGet inv.id],
        [LogEvent.verbose "RoomInvitation" "date()"],
        match puppetInvitationPayloadGet store inv.id with
        | Except.error e => Except.error e
        | Except.ok p => Except.ok (timestampToDate p.timestamp)⟩

/-- Embedding of `age()`: `Math.floor((Date.now() - recvDate.getTime()) / 1000)`,
with the host clock passed in as `now` in milliseconds.  `Math.floor`
of the millisecond quotient is floor division, `Int.fdiv`. -/
def RoomInvitation.age (store : Store) (inv : RoomInvitation) (now : Int) : MResult Int :=
  let d := RoomInvitation.date store inv
  ⟨d.store, d.calls, d.logs,
    match d.result with
    | Except.error e => Except.error e
    | Except.ok recvTime => Except.ok (Int.fdiv (now - recvTime) 1000)⟩

/-- Embedding of `accept()`: commit the acceptance at the puppet layer
(a failure there propagates), then resolve the inviter and the topic
(each re-fetches the payload; a fetch failure propagates), and finally
wait for the inviter to be ready inside a `try` block: a failure of that
wait is logged as a warning and swallowed, so the method still
resolves. -/
def RoomInvitation.accept (store : Store) (inv : RoomInvitation) : MResult Unit :=
  match inv.puppetOf with
  | Except.error e => ⟨store, [], [LogEvent.verbose "RoomInvitation" "accept()"], Except.error e⟩
  | Except.ok cfg =>
      match cfg.acceptResult inv.id with
      | Except.error e =>
          ⟨store, [PuppetCall.invitationAccept inv.id],
            [LogEvent.verbose "RoomInvitation" "accept()"], Except.error e⟩
      | Except.ok _ =>
          match puppetInvitationPayloadGet store inv.id with
          | Except.error e =>
              ⟨store,
                [PuppetCall.invitationAccept inv.id, PuppetCall.invitationPayloadGet inv.id],
                [LogEvent.verbose "RoomInvitation" "accept()",
                 LogEvent.verbose "RoomInvitation" "inviter()"],
                Except.error e⟩
          | Except.ok p =>
              match cfg.contactReadyResult p.inviterId with
              | Except.ok _ =>
                  ⟨store,
                    [PuppetCall.invitationAccept inv.id,
                     PuppetCall.invitationPayloadGet inv.id,
                     PuppetCall.invitationPayloadGet inv.id,
                     PuppetCall.contactReady p.inviterId],
                    [LogEvent.verbose "RoomInvitation" "accept()",
                     LogEvent.verbose "RoomInvitation" "inviter()",
                     LogEvent.verbose "RoomInvitation"
                       ("accept() with room(" ++ jsOrString p.topic "" ++ ") & inviter(" ++ p.inviterId ++ ") ready()")],
                    Except.ok ()⟩
              | Except.error e =>
                  ⟨store,
                    [PuppetCall.invitationAccept inv.id,
                     PuppetCall.invitationPayloadGet inv.id,
                     PuppetCall.invitationPayloadGet inv.id,
                     PuppetCall.contactReady p.inviterId],
                    [LogEvent.verbose "RoomInvitation" "accept()",
                     LogEvent.verbose "RoomInvitation" "inviter()",
                     LogEvent.warn "RoomInvitation"
                       ("accept() inviter(" ++ p.inviterId ++ ") is not ready because of " ++ e)],
                    Except.ok ()⟩

/-- Embedding of `toJSON()`: fetch the payload and stringify it. -/
def RoomInvitation.toJSON (store : Store) (inv : RoomInvitation) : MResult JsonText :=
  match inv.puppetOf with
  | Except.error e => ⟨store, [], [LogEvent.verbose "RoomInvitation" "toJSON()"], Except.error e⟩
  | Except.ok _ =>
      ⟨store, [PuppetCall.invitationPayloadGet inv.id],
        [LogEvent.verbose "RoomInvitation" "toJSON()"],
        match puppetInvitationPayloadGet store inv.id with
        | Except.error e => Except.error e
        | Except.ok p => Except.ok (jsonStringify p)⟩

/-- The `string | RoomInvitationPayload` input type of `fromJSON`. -/
inductive FromJsonInput where
  | strInput (t : JsonText)
  | objInput (p : RoomInvitationPayload)

/-- Embedding of the static `fromJSON`: a string input is parsed first
(a parse failure rejects before any puppet call); the payload is then
written through to the puppet store by the puppet call
`roomInvitationPayload(payload.id, payload)`, whose outcome is given by
the `setOutcome` channel — the source awaits this call with no catch,
so a rejection propagates out of `fromJSON` and no handle is
constructed; only after a successful write-through is the handle
constructed by `load` on the bound class. -/
def RoomInvitation.fromJSONWith
    (setOutcome : String → RoomInvitationPayload → Except String Unit)
    (cls : RIClass) (store : Store) (input : FromJsonInput) :
    MResult RoomInvitation :=
  let logs := [LogEvent.verbose "RoomInvitation" "fromJSON()"]
  let parsed : Except String RoomInvitationPayload :=
    match input with
    | FromJsonInput.strInput t => jsonParse t
    | FromJsonInput.objInput p => Except.ok p
  match parsed with
  | Except.error e => ⟨store, [], logs, Except.error e⟩
  | Except.ok p =>
      match cls.wechatyGet with
      | Except.error e => ⟨store, [], logs, Except.error e⟩
      | Except.ok w =>
          match w.puppet with
          | none => ⟨store, [], logs, Except.error "TypeError: Cannot read properties of undefined"⟩
          | some _ =>
              match setOutcome p.id p with
              | Except.error e =>
                  ⟨store, [PuppetCall.invitationPayloadSet p.id p], logs, Except.error e⟩
              | Except.ok _ =>
                  let store' := Store.update store p.id p
                  let loaded := RoomInvitation.load (RIClass.wechatified w) p.id
                  ⟨store', PuppetCall.invitationPayloadSet p.id p :: loaded.1, logs, loaded.2⟩

/-- `fromJSON` on a functioning store: the specialization of
`RoomInvitation.fromJSONWith` in which the write-through puppet call
resolves, which is the premise of the stable-store round-trip and
ordering claims. -/
def RoomInvitation.fromJSON (cls : RIClass) (store : Store) (input : FromJsonInput) :
    MResult RoomInvitation :=
  RoomInvitation.fromJSONWith (fun _ _ => Except.ok ()) cls store input

/-- One facade operation, for stating properties over arbitrary
operation sequences. -/
inductive FacadeOp where
  | acceptOp
  | topicOp
  | memberCountOp
  | memberListOp
  | inviterOp
  | dateOp
  | ageOp (now : Int)
  | toJSONOp
  | fromJSONOp (input : FromJsonInput)

/-- Store left behind by one facade operation. -/
def runOp (cls : RIClass) (inv : RoomInvitation) (store : Store) : FacadeOp → Store
  | FacadeOp.acceptOp => (RoomInvitation.accept store inv).store
  | FacadeOp.topicOp => (RoomInvitation.topic store inv).store
  | FacadeOp.memberCountOp => (RoomInvitation.memberCount store inv).store
  | FacadeOp.memberListOp => (RoomInvitation.memberList store inv).store
  | FacadeOp.inviterOp => (RoomInvitation.inviter store inv).store
  | FacadeOp.dateOp => (RoomInvitation.date store inv).store
  | FacadeOp.ageOp now => (RoomInvitation.age store inv now).store
  | FacadeOp.toJSONOp => (RoomInvitation.toJSON store inv).store
  | FacadeOp.fromJSONOp input => (RoomInvitation.fromJSON cls store input).store

/-- Run a sequence of facade operations, threading the class value and
the store: each step leaves the class component untouched, which is how
the source binds the context (an immutable closure capture). -/
def runOps (inv : RoomInvitation) : RIClass × Store → List FacadeOp → RIClass × Store
  | cs, [] => cs
  | (cls, store), op :: rest => runOps inv (cls, runOp cls inv store op) rest

/-! Concrete fixtures used by witnesses and scenario claims. -/

/-- Puppet behaviour in which every call succeeds. -/
def cfgAllOk : PuppetConfig :=
  ⟨fun _ => Except.ok (), fun _ => Except.ok ()⟩

/-- Puppet behaviour in which acceptance succeeds but every contact
ready wait rejects. -/
def cfgReadyFails : PuppetConfig :=
  ⟨fun _ => Except.ok (), fun _ => Except.error "network down"⟩

/-- Puppet behaviour in which the acceptance call itself rejects. -/
def cfgAcceptFails : PuppetConfig :=
  ⟨fun _ => Except.error "transport down", fun _ => Except.ok ()⟩

/-- Context with an all-succeeding puppet. -/
def wAllOk : Wechaty := ⟨some cfgAllOk⟩

/-- Context whose puppet rejects ready waits. -/
def wReadyFails : Wechaty := ⟨some cfgReadyFails⟩

/-- Context whose puppet rejects acceptance. -/
def wAcceptFails : Wechaty := ⟨some cfgAcceptFails⟩

/-- Context with no puppet attached. -/
def wNoPuppet : Wechaty := ⟨none⟩

/-- The scenario payload from the testable-properties section. -/
def payload1 : RoomInvitationPayload :=
  ⟨"i1", "c1", some "T", some 3, some ["c1", "c2", "c3"], some 1234567890⟩

/-- Store holding exactly the scenario payload. -/
def store1 : Store := fun i => if i = "i1" then some payload1 else none

/-- Scenario handle on the all-succeeding context. -/
def inv1 : RoomInvitation := ⟨RIClass.wechatified wAllOk, "i1"⟩

/-- Scenario handle on the failing-ready context. -/
def inv1rf : RoomInvitation := ⟨RIClass.wechatified wReadyFails, "i1"⟩

/-- Payload with every optional field absent. -/
def payloadEmpty : RoomInvitationPayload := ⟨"i2", "c9", none, none, none, none⟩

/-- Store holding only the all-absent payload. -/
def store2 : Store := fun i => if i = "i2" then some payloadEmpty else none

/-- Handle on the all-absent payload. -/
def inv2 : RoomInvitation := ⟨RIClass.wechatified wAllOk, "i2"⟩

/-- Payload whose timestamp lies after the probe clock value. -/
def payloadLate : RoomInvitationPayload := ⟨"i3", "c1", none, none, none, some 1500⟩

/-- Store holding only the late payload. -/
def store3 : Store := fun i => if i = "i3" then some payloadLate else none

/-- Handle on the late payload. -/
def inv3 : RoomInvitation := ⟨RIClass.wechatified wAllOk, "i3"⟩

/-- Store holding no payload at all. -/
def emptyStore : Store := fun _ => none

/-- Handle on the accept-failing context, with no stored payload. -/
def invAcceptFails : RoomInvitation := ⟨RIClass.wechatified wAcceptFails, "nope"⟩

/-- Write-through outcome channel on which every set call rejects. -/
def setFails : String → RoomInvitationPayload → Except String Unit :=
  fun _ _ => Except.error "set down"

/-- C1: if the puppet-layer acceptance succeeds (and the payload is
fetchable so the enrichment step starts), then accept() resolves even
when the inviter ready wait rejects; the failure is logged as a warning
on the logging channel and never propagated. -/
theorem c1_accept_swallows_ready_failure
    (w : Wechaty) (cfg : PuppetConfig) (store : Store) (inv : RoomInvitation)
    (p : RoomInvitationPayload) (e : String)
    (hcls : inv.cls = RIClass.wechatified w)
    (hpup : w.puppet = some cfg)
    (hacc : cfg.acceptResult inv.id = Except.ok ())
    (hstore : store inv.id = some p)
    (hready : cfg.contactReadyResult p.inviterId = Except.error e) :
    (RoomInvitation.accept store inv).result = Except.ok () ∧
      LogEvent.warn "RoomInvitation"
          ("accept() inviter(" ++ p.inviterId ++ ") is not ready because of " ++ e)
        ∈ (RoomInvitation.accept store inv).logs := by
  simp [RoomInvitation.accept, RoomInvitation.puppetOf, puppetInvitationPayloadGet,
    hcls, hpup, hacc, hstore, hready]

/-- C1 witness: a concrete run in which the ready wait rejects. -/
theorem c1_accept_swallows_ready_failure_witness :
    (RoomInvitation.accept store1 inv1rf).result = Except.ok () ∧
      LogEvent.warn "RoomInvitation"
          ("accept() inviter(" ++ "c1" ++ ") is not ready because of " ++ "network down")
        ∈ (RoomInvitation.accept store1 inv1rf).logs :=
  c1_accept_swallows_ready_failure wReadyFails cfgReadyFails store1 inv1rf payload1
    "network down" rfl rfl rfl (by decide) rfl

/-- C2: on a stable store, toJSON() followed by fromJSON() yields a
handle whose field reads (topic, member count, date, inviter id, member
list) agree with the original stored payload. -/
theorem c2_toJSON_fromJSON_roundtrip
    (w : Wechaty) (cfg : PuppetConfig) (store : Store) (inv : RoomInvitation)
    (p : RoomInvitationPayload)
    (hcls : inv.cls = RIClass.wechatified w)
    (hpup : w.puppet = some cfg)
    (hstore : store inv.id = some p) :
    ∃ t store' inv',
      (RoomInvitation.toJSON store inv).result = Except.ok t ∧
      (RoomInvitation.fromJSON inv.cls store (FromJsonInput.strInput t)).result = Except.ok inv' ∧
      (RoomInvitation.fromJSON inv.cls store (FromJsonInput.strInput t)).store = store' ∧
      (RoomInvitation.topic store' inv').result = Except.ok (jsOrString p.topic "") ∧
      (RoomInvitation.memberCount store' inv').result = Except.ok (jsOrInt p.memberCount 0) ∧
      (RoomInvitation.date store' inv').result = Except.ok (timestampToDate p.timestamp) ∧
      (RoomInvitation.inviter store' inv').result = Except.ok p.inviterId ∧
      (RoomInvitation.memberList store' inv').result = (RoomInvitation.memberList store inv).result := by
  refine ⟨jsonStringify p, Store.update store p.id p, ⟨RIClass.wechatified w, p.id⟩,
    ?_, ?_, ?_, ?_, ?_, ?_, ?_, ?_⟩ <;>
    simp [RoomInvitation.toJSON, RoomInvitation.fromJSON, RoomInvitation.fromJSONWith,
      RoomInvitation.load, RoomInvitation.construct, RoomInvitation.topic,
      RoomInvitation.memberCount, RoomInvitation.date, RoomInvitation.inviter,
      RoomInvitation.memberList, RoomInvitation.puppetOf, RIClass.wechatyGet,
      puppetInvitationPayloadGet, Store.update, jsonStringify, jsonParse,
      hcls, hpup, hstore]

/-- C2 witness: the round trip evaluated on the scenario payload. -/
theorem c2_toJSON_fromJSON_roundtrip_witness :
    ∃ t store' inv',
      (RoomInvitation.toJSON store1 inv1).result = Except.ok t ∧
      (RoomInvitation.fromJSON inv1.cls store1 (FromJsonInput.strInput t)).result = Except.ok inv' ∧
      (RoomInvitation.fromJSON inv1.cls store1 (FromJsonInput.strInput t)).store = store' ∧
      (RoomInvitation.topic store' inv').result = Except.ok (jsOrString payload1.topic "") ∧
      (RoomInvitation.memberCount store' inv').result = Except.ok (jsOrInt payload1.memberCount 0) ∧
      (RoomInvitation.date store' inv').result = Except.ok (timestampToDate payload1.timestamp) ∧
      (RoomInvitation.inviter store' inv').result = Except.ok payload1.inviterId ∧
      (RoomInvitation.memberList store' inv').result = (RoomInvitation.memberList store1 inv1).result :=
  c2_toJSON_fromJSON_roundtrip wAllOk cfgAllOk store1 inv1 payload1 rfl rfl (by decide)

/-- C3: fromJSON parses a string input first and rejects malformed
input before any puppet call; on a well-formed input the payload is
written through to the store (the only puppet call) before the handle
is constructed, and the handle carries the payload id. -/
theorem c3_fromJSON_parse_before_puppet
    (w : Wechaty) (cfg : PuppetConfig) (store : Store) (s : String)
    (p : RoomInvitationPayload)
    (hpup : w.puppet = some cfg) :
    (∃ e, (RoomInvitation.fromJSON (RIClass.wechatified w) store
        (FromJsonInput.strInput (JsonText.malformed s))).result = Except.error e) ∧
    (RoomInvitation.fromJSON (RIClass.wechatified w) store
        (FromJsonInput.strInput (JsonText.malformed s))).calls = [] ∧
    (RoomInvitation.fromJSON (RIClass.wechatified w) store
        (FromJsonInput.strInput (JsonText.payloadText p))).calls
      = [PuppetCall.invitationPayloadSet p.id p] ∧
    (RoomInvitation.fromJSON (RIClass.wechatified w) store
        (FromJsonInput.strInput (JsonText.payloadText p))).store p.id = some p ∧
    (∃ inv', (RoomInvitation.fromJSON (RIClass.wechatified w) store
        (FromJsonInput.strInput (JsonText.payloadText p))).result = Except.ok inv' ∧
      inv'.id = p.id) := by
  refine ⟨⟨_, rfl⟩, rfl, ?_, ?_, ⟨⟨RIClass.wechatified w, p.id⟩, ?_, rfl⟩⟩ <;>
    simp [RoomInvitation.fromJSON, RoomInvitation.fromJSONWith, RoomInvitation.load,
      RoomInvitation.construct, RIClass.wechatyGet, Store.update, jsonParse, hpup]

/-- C3 witness: concrete malformed and well-formed inputs. -/
theorem c3_fromJSON_parse_before_puppet_witness :
    (∃ e, (RoomInvitation.fromJSON (RIClass.wechatified wAllOk) emptyStore
        (FromJsonInput.strInput (JsonText.malformed "not json"))).result = Except.error e) ∧
    (RoomInvitation.fromJSON (RIClass.wechatified wAllOk) emptyStore
        (FromJsonInput.strInput (JsonText.malformed "not json"))).calls = [] ∧
    (RoomInvitation.fromJSON (RIClass.wechatified wAllOk) emptyStore
        (FromJsonInput.strInput (JsonText.payloadText payload1))).calls
      = [PuppetCall.invitationPayloadSet payload1.id payload1] ∧
    (RoomInvitation.fromJSON (RIClass.wechatified wAllOk) emptyStore
        (FromJsonInput.strInput (JsonText.payloadText payload1))).store payload1.id = some payload1 ∧
    (∃ inv', (RoomInvitation.fromJSON (RIClass.wechatified wAllOk) emptyStore
        (FromJsonInput.strInput (JsonText.payloadText payload1))).result = Except.ok inv' ∧
      inv'.id = payload1.id) :=
  c3_fromJSON_parse_before_puppet wAllOk cfgAllOk emptyStore "not json" payload1 rfl

/-- C4: on the scenario payload, topic() returns "T", memberCount()
returns 3, and memberList() resolves with the three contact handles
loaded from c1, c2, c3 in order, after starting a ready wait on each
(visible in the puppet-call trace). -/
theorem c4_scenario_payload1 :
    (RoomInvitation.topic store1 inv1).result = Except.ok "T" ∧
    (RoomInvitation.memberCount store1 inv1).result = Except.ok 3 ∧
    (RoomInvitation.memberList store1 inv1).result = Except.ok ["c1", "c2", "c3"] ∧
    (RoomInvitation.memberList store1 inv1).calls =
      [PuppetCall.invitationPayloadGet "i1", PuppetCall.contactReady "c1",
       PuppetCall.contactReady "c2", PuppetCall.contactReady "c3"] :=
  ⟨rfl, rfl, rfl, rfl⟩

/-- C5: on a bound class whose context has a puppet, load(id) makes no
puppet call and returns a handle whose id field equals the argument. -/
theorem c5_load_preserves_id
    (w : Wechaty) (cfg : PuppetConfig) (id : String)
    (hpup : w.puppet = some cfg) :
    (RoomInvitation.load (wechatifyRoomInvitation w) id).1 = [] ∧
    ∃ inv, (RoomInvitation.load (wechatifyRoomInvitation w) id).2 = Except.ok inv ∧
      inv.id = id := by
  refine ⟨?_, ⟨⟨RIClass.wechatified w, id⟩, ?_, rfl⟩⟩ <;>
    simp [RoomInvitation.load, RoomInvitation.construct, wechatifyRoomInvitation, hpup]

/-- C5 witness: load on a concrete bound class and id. -/
theorem c5_load_preserves_id_witness :
    (RoomInvitation.load (wechatifyRoomInvitation wAllOk) "i1").1 = [] ∧
    ∃ inv, (RoomInvitation.load (wechatifyRoomInvitation wAllOk) "i1").2 = Except.ok inv ∧
      inv.id = "i1" :=
  c5_load_preserves_id wAllOk cfgAllOk "i1" rfl

/-- Age computation following the claim text literally: the difference
between the host clock and the derived date, converted to seconds and
truncated to a whole number (rounding toward zero, `Int.tdiv`). -/
def specAgeTruncated (now recvTime : Int) : Int :=
  Int.tdiv (now - recvTime) 1000

/-- C6 counterexample: with a stored timestamp 1500 ms and the host
clock at 0 ms, the code (Math.floor) yields age -2, while the claimed
truncation of the -1500 ms difference yields -1, so age() does not
return the truncated difference. -/
theorem c6_age_not_truncated_counterexample :
    (RoomInvitation.age store3 inv3 0).result = Except.ok (-2) ∧
    specAgeTruncated 0 (timestampToDate payloadLate.timestamp) = -1 ∧
    (RoomInvitation.age store3 inv3 0).result ≠
      Except.ok (specAgeTruncated 0 (timestampToDate payloadLate.timestamp)) := by
  refine ⟨rfl, rfl, ?_⟩
  show Except.ok (-2 : Int) ≠ Except.ok (-1 : Int)
  intro h
  injection h with h
  exact absurd h (by decide)

/-- C6 (amended): age() returns the difference between the host clock
and the date derived from the payload timestamp, converted to seconds
and rounded down to the next lower whole number (floor, also when the
difference is negative): the result a satisfies
a * 1000 ≤ difference < (a + 1) * 1000. -/
theorem c6_age_is_floored_difference
    (w : Wechaty) (cfg : PuppetConfig) (store : Store) (inv : RoomInvitation)
    (p : RoomInvitationPayload) (now : Int)
    (hcls : inv.cls = RIClass.wechatified w)
    (hpup : w.puppet = some cfg)
    (hstore : store inv.id = some p) :
    ∃ a, (RoomInvitation.age store inv now).result = Except.ok a ∧
      a * 1000 ≤ now - timestampToDate p.timestamp ∧
      now - timestampToDate p.timestamp < (a + 1) * 1000 := by
  refine ⟨Int.fdiv (now - timestampToDate p.timestamp) 1000, ?_, ?_, ?_⟩
  · simp [RoomInvitation.age, RoomInvitation.date, RoomInvitation.puppetOf,
      puppetInvitationPayloadGet, hcls, hpup, hstore]
  · rw [Int.fdiv_eq_ediv _ (by decide)]
    omega
  · rw [Int.fdiv_eq_ediv _ (by decide)]
    omega

/-- C6 witness: the floored-difference bounds evaluated concretely. -/
theorem c6_age_is_floored_difference_witness :
    ∃ a, (RoomInvitation.age store3 inv3 0).result = Except.ok a ∧
      a * 1000 ≤ 0 - timestampToDate payloadLate.timestamp ∧
      0 - timestampToDate payloadLate.timestamp < (a + 1) * 1000 :=
  c6_age_is_floored_difference wAllOk cfgAllOk store3 inv3 payloadLate 0
    rfl rfl (by decide)

/-- C7: for a fixed handle on a stable store, age() is monotonically
non-decreasing in the host clock: a later (not earlier) clock value
yields an age at least as large. -/
theorem c7_age_monotone
    (w : Wechaty) (cfg : PuppetConfig) (store : Store) (inv : RoomInvitation)
    (p : RoomInvitationPayload) (now1 now2 : Int)
    (hcls : inv.cls = RIClass.wechatified w)
    (hpup : w.puppet = some cfg)
    (hstore : store inv.id = some p)
    (hnow : now1 ≤ now2) :
    ∃ a1 a2, (RoomInvitation.age store inv now1).result = Except.ok a1 ∧
      (RoomInvitation.age store inv now2).result = Except.ok a2 ∧
      a1 ≤ a2 := by
  refine ⟨Int.fdiv (now1 - timestampToDate p.timestamp) 1000,
    Int.fdiv (now2 - timestampToDate p.timestamp) 1000, ?_, ?_, ?_⟩
  · simp [RoomInvitation.age, RoomInvitation.date, RoomInvitation.puppetOf,
      puppetInvitationPayloadGet, hcls, hpup, hstore]
  · simp [RoomInvitation.age, RoomInvitation.date, RoomInvitation.puppetOf,
      puppetInvitationPayloadGet, hcls, hpup, hstore]
  · rw [Int.fdiv_eq_ediv _ (by decide), Int.fdiv_eq_ediv _ (by decide)]
    exact Int.ediv_le_ediv (by decide) (by omega)

/-- C7 witness: two successive clock readings on the scenario payload. -/
theorem c7_age_monotone_witness :
    ∃ a1 a2, (RoomInvitation.age store1 inv1 2000000000).result = Except.ok a1 ∧
      (RoomInvitation.age store1 inv1 2000005000).result = Except.ok a2 ∧
      a1 ≤ a2 :=
  c7_age_monotone wAllOk cfgAllOk store1 inv1 payload1 2000000000 2000005000
    rfl rfl (by decide) (by decide)

/-- C8: constructing on the unspecialized base class, or on a bound
class whose context lacks a puppet, throws synchronously; and on every
other facade operation a puppet failure propagates to the caller: with
no stored payload every payload-fetching operation rejects, a failing
puppet acceptance makes accept() reject with that error, and a
rejecting write-through propagates out of fromJSON (on either input
form) after the set call was issued, with no handle constructed. -/
theorem c8_config_and_transport_errors
    (id : String) (w0 w : Wechaty) (cfg : PuppetConfig) (store : Store)
    (inv : RoomInvitation) (e e2 : String) (p : RoomInvitationPayload)
    (setOut : String → RoomInvitationPayload → Except String Unit)
    (h0 : w0.puppet = none)
    (hcls : inv.cls = RIClass.wechatified w)
    (hpup : w.puppet = some cfg)
    (hmiss : store inv.id = none)
    (hacc : cfg.acceptResult inv.id = Except.error e)
    (hset : setOut p.id p = Except.error e2) :
    (∃ m, (RoomInvitation.construct RIClass.base id).2 = Except.error m) ∧
    (∃ m, (RoomInvitation.construct (RIClass.wechatified w0) id).2 = Except.error m) ∧
    (∃ m, (RoomInvitation.topic store inv).result = Except.error m) ∧
    (∃ m, (RoomInvitation.memberCount store inv).result = Except.error m) ∧
    (∃ m, (RoomInvitation.memberList store inv).result = Except.error m) ∧
    (∃ m, (RoomInvitation.inviter store inv).result = Except.error m) ∧
    (∃ m, (RoomInvitation.date store inv).result = Except.error m) ∧
    (∃ m, (RoomInvitation.age store inv 0).result = Except.error m) ∧
    (∃ m, (RoomInvitation.toJSON store inv).result = Except.error m) ∧
    (RoomInvitation.accept store inv).result = Except.error e ∧
    (RoomInvitation.fromJSONWith setOut (RIClass.wechatified w) store
        (FromJsonInput.objInput p)).result = Except.error e2 ∧
    (RoomInvitation.fromJSONWith setOut (RIClass.wechatified w) store
        (FromJsonInput.objInput p)).calls = [PuppetCall.invitationPayloadSet p.id p] ∧
    (RoomInvitation.fromJSONWith setOut (RIClass.wechatified w) store
        (FromJsonInput.strInput (JsonText.payloadText p))).result = Except.error e2 := by
  simp [RoomInvitation.construct, RoomInvitation.topic, RoomInvitation.memberCount,
    RoomInvitation.memberList, RoomInvitation.inviter, RoomInvitation.date,
    RoomInvitation.age, RoomInvitation.toJSON, RoomInvitation.accept,
    RoomInvitation.fromJSONWith, RIClass.wechatyGet, jsonParse,
    RoomInvitation.puppetOf, puppetInvitationPayloadGet,
    h0, hcls, hpup, hmiss, hacc, hset]

/-- C8 witness: concrete configuration and transport failures,
including a rejecting write-through inside fromJSON. -/
theorem c8_config_and_transport_errors_witness :
    (∃ m, (RoomInvitation.construct RIClass.base "i1").2 = Except.error m) ∧
    (∃ m, (RoomInvitation.construct (RIClass.wechatified wNoPuppet) "i1").2 = Except.error m) ∧
    (∃ m, (RoomInvitation.topic emptyStore invAcceptFails).result = Except.error m) ∧
    (∃ m, (RoomInvitation.memberCount emptyStore invAcceptFails).result = Except.error m) ∧
    (∃ m, (RoomInvitation.memberList emptyStore invAcceptFails).result = Except.error m) ∧
    (∃ m, (RoomInvitation.inviter emptyStore invAcceptFails).result = Except.error m) ∧
    (∃ m, (RoomInvitation.date emptyStore invAcceptFails).result = Except.error m) ∧
    (∃ m, (RoomInvitation.age emptyStore invAcceptFails 0).result = Except.error m) ∧
    (∃ m, (RoomInvitation.toJSON emptyStore invAcceptFails).result = Except.error m) ∧
    (RoomInvitation.accept emptyStore invAcceptFails).result = Except.error "transport down" ∧
    (RoomInvitation.fromJSONWith setFails (RIClass.wechatified wAcceptFails) emptyStore
        (FromJsonInput.objInput payload1)).result = Except.error "set down" ∧
    (RoomInvitation.fromJSONWith setFails (RIClass.wechatified wAcceptFails) emptyStore
        (FromJsonInput.objInput payload1)).calls
      = [PuppetCall.invitationPayloadSet payload1.id payload1] ∧
    (RoomInvitation.fromJSONWith setFails (RIClass.wechatified wAcceptFails) emptyStore
        (FromJsonInput.strInput (JsonText.payloadText payload1))).result = Except.error "set down" :=
  c8_config_and_transport_errors "i1" wNoPuppet wAcceptFails cfgAcceptFails emptyStore
    invAcceptFails "transport down" "set down" payload1 setFails rfl rfl rfl rfl rfl rfl

/-- C9: the context captured by wechatifyRoomInvitation is fixed at
specialization time: the static accessor of the produced class and the
instance accessor of any handle loaded from it return that same context,
and running any sequence of facade operations leaves the class component
(and hence both accessors) unchanged. -/
theorem c9_bound_context_fixed
    (w : Wechaty) (cfg : PuppetConfig) (id : String) (store : Store)
    (ops : List FacadeOp)
    (hpup : w.puppet = some cfg) :
    (wechatifyRoomInvitation w).wechatyGet = Except.ok w ∧
    ∃ inv, (RoomInvitation.load (wechatifyRoomInvitation w) id).2 = Except.ok inv ∧
      inv.cls.wechatyGet = Except.ok w ∧
      (runOps inv (wechatifyRoomInvitation w, store) ops).1 = wechatifyRoomInvitation w ∧
      ((runOps inv (wechatifyRoomInvitation w, store) ops).1).wechatyGet = Except.ok w := by
  have hfst : ∀ (inv : RoomInvitation) (cls : RIClass) (st : Store) (l : List FacadeOp),
      (runOps inv (cls, st) l).1 = cls := by
    intro inv cls st l
    induction l generalizing st with
    | nil => rfl
    | cons op rest ih => exact ih _
  refine ⟨rfl, ⟨RIClass.wechatified w, id⟩, ?_, rfl, hfst _ _ _ _, ?_⟩
  · simp [RoomInvitation.load, RoomInvitation.construct, wechatifyRoomInvitation, hpup]
  · rw [hfst]
    rfl

/-- C9 witness: accessor stability over a concrete operation sequence. -/
theorem c9_bound_context_fixed_witness :
    (wechatifyRoomInvitation wAllOk).wechatyGet = Except.ok wAllOk ∧
    ∃ inv, (RoomInvitation.load (wechatifyRoomInvitation wAllOk) "i1").2 = Except.ok inv ∧
      inv.cls.wechatyGet = Except.ok wAllOk ∧
      (runOps inv (wechatifyRoomInvitation wAllOk, store1)
          [FacadeOp.acceptOp, FacadeOp.topicOp,
           FacadeOp.fromJSONOp (FromJsonInput.objInput payload1),
           FacadeOp.memberListOp]).1 = wechatifyRoomInvitation wAllOk ∧
      ((runOps inv (wechatifyRoomInvitation wAllOk, store1)
          [FacadeOp.acceptOp, FacadeOp.topicOp,
           FacadeOp.fromJSONOp (FromJsonInput.objInput payload1),
           FacadeOp.memberListOp]).1).wechatyGet = Except.ok wAllOk :=
  c9_bound_context_fixed wAllOk cfgAllOk "i1" store1
    [FacadeOp.acceptOp, FacadeOp.topicOp,
     FacadeOp.fromJSONOp (FromJsonInput.objInput payload1),
     FacadeOp.memberListOp] rfl

/-- C10: when the fetched payload fields are absent or falsy the
accessors return fixed defaults instead of failing: topic() resolves
with "", memberCount() with 0, and memberList() with the empty list
when the member id list is absent. -/
theorem c10_field_defaults
    (w : Wechaty) (cfg : PuppetConfig) (store : Store) (inv : RoomInvitation)
    (p : RoomInvitationPayload)
    (hcls : inv.cls = RIClass.wechatified w)
    (hpup : w.puppet = some cfg)
    (hstore : store inv.id = some p) :
    ((p.topic = none ∨ p.topic = some "") →
      (RoomInvitation.topic store inv).result = Except.ok "") ∧
    ((p.memberCount = none ∨ p.memberCount = some 0) →
      (RoomInvitation.memberCount store inv).result = Except.ok 0) ∧
    (p.memberIdList = none →
      (RoomInvitation.memberList store inv).result = Except.ok []) := by
  refine ⟨?_, ?_, ?_⟩
  · rintro (h | h) <;>
      simp [RoomInvitation.topic, RoomInvitation.puppetOf, puppetInvitationPayloadGet,
        jsOrString, hcls, hpup, hstore, h]
  · rintro (h | h) <;>
      simp [RoomInvitation.memberCount, RoomInvitation.puppetOf, puppetInvitationPayloadGet,
        jsOrInt, hcls, hpup, hstore, h]
  · intro h
    simp [RoomInvitation.memberList, RoomInvitation.puppetOf, puppetInvitationPayloadGet,
      jsOrList, contactsReady, hcls, hpup, hstore, h]

/-- C10 witness: the all-absent payload evaluated concretely. -/
theorem c10_field_defaults_witness :
    ((payloadEmpty.topic = none ∨ payloadEmpty.topic = some "") →
      (RoomInvitation.topic store2 inv2).result = Except.ok "") ∧
    ((payloadEmpty.memberCount = none ∨ payloadEmpty.memberCount = some 0) →
      (RoomInvitation.memberCount store2 inv2).result = Except.ok 0) ∧
    (payloadEmpty.memberIdList = none →
      (RoomInvitation.memberList store2 inv2).result = Except.ok []) :=
  c10_field_defaults wAllOk cfgAllOk store2 inv2 payloadEmpty rfl rfl (by decide)
